import Mathlib

/-!
Shallow embedding of the coupon model of the edx-ecommerce front end
(src/ecommerce/static/js/models/coupon_model.js).

The JavaScript model is a Backbone model.  We embed:
  - the attribute record of the model (`CouponRequest`),
  - the field validators for start_date / end_date and the course_id pattern,
  - the change handlers `changeVoucherType`, `loadCourse`, `fillFromCourse`,
  - the `save` routine that shapes the submission payload,
  - a small event system for the reachable model states and for the
    course-subscription bookkeeping of Backbone `listenTo`.

JavaScript numbers that arise from `parseInt` / `parseFloat` are embedded as
`Option Int` / `Option Rat`, with `none` standing for `NaN`.
-/

namespace CouponModel

/-- A JavaScript attribute value as relevant to the coupon model: a number,
a string, or undefined. -/
inductive JSVal where
  | num (n : Int)
  | str (s : String)
  | undef
deriving DecidableEq

/-- underscore's isEmpty on the attribute values above: null and undefined are
empty, a string is empty iff it has length zero, and a number is empty
(a number is not array-like and has no own keys, so underscore reports true). -/
def jsIsEmpty : JSVal → Bool
  | JSVal.num _ => true
  | JSVal.str s => decide (s = "")
  | JSVal.undef => true

/-- Numeric value of a list of decimal digit characters. -/
def natOfDigits (l : List Char) : Nat :=
  l.foldl (fun n c => n * 10 + (c.toNat - 48)) 0

/-- The leading run of decimal digits of a character list, as a number;
none when there is no leading digit (parseInt would give NaN). -/
def leadingDigits (l : List Char) : Option Nat :=
  if (l.takeWhile Char.isDigit).isEmpty then none
  else some (natOfDigits (l.takeWhile Char.isDigit))

/-- JavaScript parseInt on a string (radix 10): skip leading spaces, an
optional sign, then the leading run of decimal digits; none models NaN. -/
def jsParseInt (s : String) : Option Int :=
  match s.toList.dropWhile (fun c => decide (c = ' ')) with
  | '-' :: t => (leadingDigits t).map (fun n => -(n : Int))
  | '+' :: t => (leadingDigits t).map (fun n => (n : Int))
  | t => (leadingDigits t).map (fun n => (n : Int))

/-- JavaScript parseFloat on a string: skip leading spaces, an optional sign,
then decimal digits with an optional fractional part; none models NaN. -/
def jsParseFloat (s : String) : Option Rat :=
  match s.toList.dropWhile (fun c => decide (c = ' ')) with
  | '-' :: t => (jsParseFloatMag t).map (fun q => -q)
  | '+' :: t => jsParseFloatMag t
  | t => jsParseFloatMag t
where
  /-- Magnitude part: digits, optionally a dot and more digits; at least one
  digit must be present overall. -/
  jsParseFloatMag (l : List Char) : Option Rat :=
    let intDs := l.takeWhile Char.isDigit
    let rest := l.dropWhile Char.isDigit
    let fracDs := match rest with
      | '.' :: t => t.takeWhile Char.isDigit
      | _ => []
    if intDs.isEmpty && fracDs.isEmpty then none
    else some ((natOfDigits intDs : Rat) + (natOfDigits fracDs : Rat) / ((10 : Rat) ^ fracDs.length))

/-- parseInt applied to a raw attribute value: a numeric attribute passes
through (the model only ever stores integers), a string is parsed, and
undefined parses to NaN. -/
def jsvalParseInt : JSVal → Option Int
  | JSVal.num n => some n
  | JSVal.str s => jsParseInt s
  | JSVal.undef => none

/-- A stock record of a seat product; over the wire ids arrive as strings. -/
structure StockRecord where
  id : String
deriving DecidableEq

/-- A seat product of a course.  display_name embeds the seat's display-name
accessor (getSeatTypeDisplayName), used only for option labels. -/
structure Seat where
  certificate_type : String
  display_name : String
  stockrecords : List StockRecord
deriving DecidableEq

/-- A resolved course together with its seat products. -/
structure Course where
  id : String
  products : List Seat
deriving DecidableEq

/-- A seat-type option (value, label) as derived by fillFromCourse. -/
structure SeatTypeOpt where
  value : String
  label : String
deriving DecidableEq

/-- The attribute record of the coupon Backbone model.  Unset string
attributes are embedded as the empty string (underscore's isEmpty and
moment's parsing treat undefined and the empty string alike everywhere the
model reads them); the quantity attribute keeps its JavaScript type. -/
structure CouponRequest where
  title : String := ""
  client_username : String := ""
  course_id : String := ""
  code_type : String := ""
  seat_type : String := ""
  price : String := ""
  benefit_type : String := ""
  benefit_value : String := ""
  start_date : String := ""
  end_date : String := ""
  voucher_type : String := ""
  quantity : JSVal := JSVal.undef
  code : Option String := none
  course : Option Course := none
  seatTypes : List SeatTypeOpt := []
deriving DecidableEq

/-- The model constructor: Backbone first stores the creation attributes,
then initialize runs, registering the change handlers and setting the
quantity attribute to 1. -/
def initializeReq (r : CouponRequest) : CouponRequest :=
  { r with quantity := JSVal.num 1 }

/-! ### The courseId pattern

The source extends Backbone.Validation.patterns with
courseId being the regex of three segments: a nonempty run of characters
other than slash and plus, a separator (slash or plus), again such a run,
again a separator, and finally a nonempty run of characters other than
slash.  The regex is unanchored: the validator tests whether the value
CONTAINS a match.  Because the first two segment classes exclude both
separator characters, greedy matching without backtracking is complete, and
the matcher below is an exact deterministic transcription. -/

/-- The separator class of the courseId regex: slash or plus. -/
def isSep (c : Char) : Bool := decide (c = '/') || decide (c = '+')

/-- Matcher state: right after the second separator; the third segment needs
one character that is not a slash (a plus is allowed here). -/
def m4 : List Char → Bool
  | [] => false
  | c :: _ => decide (c ≠ '/')

/-- Matcher state: inside the second segment, scanning for the second
separator. -/
def m3 : List Char → Bool
  | [] => false
  | c :: t => if isSep c then m4 t else m3 t

/-- Matcher state: right after the first separator; the second segment must
start with a non-separator character. -/
def m2 : List Char → Bool
  | [] => false
  | c :: t => if isSep c then false else m3 t

/-- Matcher state: inside the first segment (at least one character read),
scanning for the first separator. -/
def m1 : List Char → Bool
  | [] => false
  | c :: t => if isSep c then m2 t else m1 t

/-- Does a match of the courseId regex start exactly at the head of the
list? -/
def matchAtStart : List Char → Bool
  | [] => false
  | c :: t => if isSep c then false else m1 t

/-- Does the list contain a match of the courseId regex anywhere
(JavaScript String.match with an unanchored regex)? -/
def containsMatch : List Char → Bool
  | [] => false
  | c :: t => matchAtStart (c :: t) || containsMatch t

/-- The course_id pattern validation: Backbone.Validation rejects a value
without content, and otherwise accepts iff the string matches (contains a
match of) the courseId regex. -/
def courseIdValid (s : String) : Bool :=
  containsMatch s.toList

/-- Splits a character list at every slash or plus, keeping empty pieces.
Used only to state the spec's reading of the pattern. -/
def splitSegs : List Char → List (List Char)
  | [] => [[]]
  | c :: t =>
      if isSep c then [] :: splitSegs t
      else
        match splitSegs t with
        | [] => [[c]]
        | h :: r => (c :: h) :: r

/-- Modelled from the spec's words (not from the source): the claim that a
course id consists exactly of three non-empty segments separated by slash
or plus, with nothing before, between or after them. -/
def specThreeSegments (s : String) : Bool :=
  match splitSegs s.toList with
  | [a, b, c] => !a.isEmpty && !b.isEmpty && !c.isEmpty
  | _ => false

/-! ### Date validation -/

/-- A calendar date as parsed from the fixed MM/DD/YYYY display format. -/
structure SimpleDate where
  year : Nat
  month : Nat
  day : Nat
deriving DecidableEq

/-- Gregorian leap years. -/
def isLeap (y : Nat) : Bool :=
  (decide (y % 4 = 0) && !decide (y % 100 = 0)) || decide (y % 400 = 0)

/-- Days in a month, as moment uses to reject overflowed dates. -/
def daysInMonth (y m : Nat) : Nat :=
  if m = 2 then (if isLeap y then 29 else 28)
  else if m = 4 ∨ m = 6 ∨ m = 9 ∨ m = 11 then 30
  else 31

/-- Are all characters decimal digits? -/
def allDigits (l : List Char) : Bool := l.all Char.isDigit

/-- Splits a character list at every slash, keeping empty pieces. -/
def splitOnSlash : List Char → List (List Char)
  | [] => [[]]
  | c :: t =>
      if c = '/' then [] :: splitOnSlash t
      else
        match splitOnSlash t with
        | [] => [[c]]
        | h :: r => (c :: h) :: r

/-- Parsing a date string against the model's dateFormat MM/DD/YYYY
(moment(val, 'MM/DD/YYYY').isValid()): one or two digits of month, one or
two digits of day, four digits of year, separated by slashes, with the
month and day in calendar range; none models an invalid moment. -/
def parseDate (s : String) : Option SimpleDate :=
  match splitOnSlash s.toList with
  | [ms, ds, ys] =>
      if allDigits ms && allDigits ds && allDigits ys
          && decide (1 ≤ ms.length) && decide (ms.length ≤ 2)
          && decide (1 ≤ ds.length) && decide (ds.length ≤ 2)
          && decide (ys.length = 4) then
        let m := natOfDigits ms
        let d := natOfDigits ds
        let y := natOfDigits ys
        if decide (1 ≤ m) && decide (m ≤ 12) && decide (1 ≤ d) && decide (d ≤ daysInMonth y m) then
          some ⟨y, m, d⟩
        else none
      else none
  | _ => none

/-- Strict calendar order on parsed dates; with both moments at midnight of
their date, moment's isBefore is exactly this order. -/
def dateLt (a b : SimpleDate) : Bool :=
  if a.year ≠ b.year then decide (a.year < b.year)
  else if a.month ≠ b.month then decide (a.month < b.month)
  else decide (a.day < b.day)

/-- The start_date validator: required; must parse; the moment built from
end_date is an object and hence always truthy, so the third check reduces to
isBefore, which is false whenever end_date fails to parse. -/
def validateStartDate (req : CouponRequest) : Option String :=
  if req.start_date = "" then some "Start date is required"
  else
    match parseDate req.start_date with
    | none => some "Start date is invalid"
    | some d =>
        match parseDate req.end_date with
        | none => some "Must occur before end date"
        | some e => if dateLt d e then none else some "Must occur before end date"

/-- The end_date validator, symmetric to the start_date validator with
isAfter in place of isBefore. -/
def validateEndDate (req : CouponRequest) : Option String :=
  if req.end_date = "" then some "End date is required"
  else
    match parseDate req.end_date with
    | none => some "End date is invalid"
    | some e =>
        match parseDate req.start_date with
        | none => some "Must occur after start date"
        | some d => if dateLt d e then none else some "Must occur after start date"

/-! ### The save routine -/

/-- The submission payload built by save.  The price / benefit fields are
absent (outer none) unless the code_type switch fills them; the inner
Option is the embedded JavaScript number, none being NaN. -/
structure Payload where
  title : String
  client_username : String
  start_date : String
  end_date : String
  stock_record_ids : List (Option Int)
  code : String
  voucher_type : String
  quantity : Option Int
  price : Option (Option Rat) := none
  benefit_type : Option String := none
  benefit_value : Option (Option Rat) := none
deriving DecidableEq

/-- The errors save can hit before producing a payload: reading products of
an absent course relation, and reading stockrecords of the undefined result
of a failed findWhere (both TypeErrors in JavaScript). -/
inductive SaveError where
  | noCourse
  | lookupError
deriving DecidableEq

/-- findWhere on the course's products with certificate_type equal to the
request's seat_type: the first matching seat, if any. -/
def findWhereCert (products : List Seat) (ct : String) : Option Seat :=
  products.find? (fun s => decide (s.certificate_type = ct))

/-- The quantity field of the payload: save first stores
parseInt(quantity) and then overwrites it with 1 when the voucher type is
not Single use or the quantity attribute is empty. -/
def couponQuantity (req : CouponRequest) : Option Int :=
  if ¬req.voucher_type = "Single use" ∨ jsIsEmpty req.quantity = true then some 1
  else jsvalParseInt req.quantity

/-- The payload before the code_type switch: the common fields of save's
data object. -/
def baseData (req : CouponRequest) (seat : Seat) : Payload :=
  { title := req.title
    client_username := req.client_username
    start_date := req.start_date
    end_date := req.end_date
    stock_record_ids := seat.stockrecords.map (fun r => jsParseInt r.id)
    code := req.code.getD ""
    voucher_type := req.voucher_type
    quantity := couponQuantity req }

/-- The code_type switch of save: enrollment forces a 100 Percentage
benefit and parses the price; discount forces price 0 and parses the
benefit value; any other code_type leaves the three fields absent. -/
def buildData (req : CouponRequest) (seat : Seat) : Payload :=
  if req.code_type = "enrollment" then
    { baseData req seat with
        price := some (jsParseFloat req.price)
        benefit_type := some "Percentage"
        benefit_value := some (some 100) }
  else if req.code_type = "discount" then
    { baseData req seat with
        price := some (some 0)
        benefit_type := some req.benefit_type
        benefit_value := some (jsParseFloat req.benefit_value) }
  else baseData req seat

/-- The save routine up to the HTTP call: resolve the seat on the related
course whose certificate_type is the request's seat_type, then shape the
payload.  An absent course or a failed seat lookup raises before any
payload exists. -/
def save (req : CouponRequest) : Except SaveError Payload :=
  match req.course with
  | none => Except.error SaveError.noCourse
  | some course =>
      match findWhereCert course.products req.seat_type with
      | none => Except.error SaveError.lookupError
      | some seat => Except.ok (buildData req seat)

/-! ### fillFromCourse -/

/-- The failure of fillFromCourse on a course with no seats: seatTypes is
the empty list, so seatTypes[0] is undefined and reading its value field
throws a TypeError. -/
inductive FillError where
  | noSeats
deriving DecidableEq

/-- The change handler on the related course: derive the (value, label)
seat-type options from the course's seats, store them, and default
seat_type to the first option's value.  On a course with no seats the
indexing of the first option throws. -/
def fillFromCourse (req : CouponRequest) (course : Course) : Except FillError CouponRequest :=
  match course.products.map (fun seat => SeatTypeOpt.mk seat.certificate_type seat.display_name) with
  | [] => Except.error FillError.noSeats
  | st :: rest => Except.ok { req with seatTypes := st :: rest, seat_type := st.value }

/-! ### The reachable states of a coupon request

The model registers two change handlers in initialize: changeVoucherType on
voucher_type and loadCourse on course_id.  Backbone fires a change handler
only when the stored value actually changes, and the handlers registered in
initialize do not see the construction-time attributes (they are stored
before initialize runs).  The operations below are the operations of the
model: one setter per user-editable attribute (each quoted with its handler,
where one is registered) and the change event of the related course.  The
quantity attribute is user-editable like the others (save itself parses it
with parseInt and tests it with isEmpty), but no change:quantity handler is
registered, so an external set of quantity lands unmodified. -/

/-- An operation on a coupon request. -/
inductive Op where
  | setTitle (v : String)
  | setClientUsername (v : String)
  | setStartDate (v : String)
  | setEndDate (v : String)
  | setCode (v : String)
  | setPrice (v : String)
  | setBenefitType (v : String)
  | setBenefitValue (v : String)
  | setCodeType (v : String)
  | setSeatType (v : String)
  | setQuantity (v : String)
  | setCourseId (v : String)
  | setVoucherType (v : String)
  | courseChanged (c : Course)
deriving DecidableEq

/-- Is the operation an external write of the quantity attribute? -/
def isSetQuantity : Op → Bool
  | Op.setQuantity _ => true
  | _ => false

/-- One step of the model.  setCourseId runs loadCourse when the value
changed and passes the pattern validation, storing the found-or-created
course entity (a fresh placeholder here; its products arrive with the
course change event).  setVoucherType runs changeVoucherType, which forces
quantity to 1 exactly when the new value is Single use.  setQuantity is an
external write of the quantity attribute (form input is a string); no
handler is registered on change:quantity, so the stored value is exactly
the written one.  courseChanged runs fillFromCourse; on a course with no
seats the handler throws after having stored the empty seatTypes list, so
that partially updated state is the resulting state. -/
def stepOp (s : CouponRequest) (op : Op) : CouponRequest :=
  match op with
  | Op.setTitle v => { s with title := v }
  | Op.setClientUsername v => { s with client_username := v }
  | Op.setStartDate v => { s with start_date := v }
  | Op.setEndDate v => { s with end_date := v }
  | Op.setCode v => { s with code := some v }
  | Op.setPrice v => { s with price := v }
  | Op.setBenefitType v => { s with benefit_type := v }
  | Op.setBenefitValue v => { s with benefit_value := v }
  | Op.setCodeType v => { s with code_type := v }
  | Op.setSeatType v => { s with seat_type := v }
  | Op.setQuantity v => { s with quantity := JSVal.str v }
  | Op.setCourseId v =>
      if s.course_id = v then s
      else if courseIdValid v then
        { s with course_id := v, course := some (Course.mk v []) }
      else { s with course_id := v }
  | Op.setVoucherType v =>
      if s.voucher_type = v then s
      else if v = "Single use" then
        { s with voucher_type := v, quantity := JSVal.num 1 }
      else { s with voucher_type := v }
  | Op.courseChanged c =>
      match fillFromCourse s c with
      | Except.ok s2 => s2
      | Except.error _ => { s with seatTypes := [] }

/-- The states a coupon request can be in: a freshly constructed model with
any creation attributes, and everything reachable from one by the model's
operations. -/
inductive Reachable : CouponRequest → Prop where
  | init (r : CouponRequest) : Reachable (initializeReq r)
  | step {s : CouponRequest} (op : Op) : Reachable s → Reachable (stepOp s op)

/-- Running a list of operations from a state, in order. -/
def runOps (s : CouponRequest) (ops : List Op) : CouponRequest :=
  ops.foldl stepOp s

/-! ### Course subscriptions (Backbone listenTo bookkeeping)

loadCourse calls listenTo on the found-or-created course entity without
ever calling stopListening, so subscriptions accumulate; the course
attribute itself is overwritten synchronously on every valid change.  The
state below tracks, for one request, the course_id attribute, the id of the
course entity the course attribute references, the ids of the course
entities the request is subscribed to, and the fetches still in flight. -/

/-- Subscription-tracking state of one coupon request. -/
structure SubState where
  course_id : Option String := none
  course : Option String := none
  subs : List String := []
  pending : List String := []
deriving DecidableEq

/-- An event of the course-resolution flow: the course_id attribute is set
to a value, or an in-flight fetch of the named course resolves. -/
inductive CEvent where
  | changeId (v : String)
  | resolve (v : String)
deriving DecidableEq

/-- One event step.  A changeId event with an unchanged value fires no
change handler.  A changed value that passes the pattern validation runs
loadCourse: the course attribute is overwritten, one more subscription is
registered, and exactly one fetch is issued.  A resolve event completes one
in-flight fetch; it fires fillFromCourse on the request, which touches
neither the course attribute nor the subscriptions. -/
def cstep (s : SubState) : CEvent → SubState
  | CEvent.changeId v =>
      if s.course_id = some v then s
      else if courseIdValid v then
        { s with
            course_id := some v
            course := some v
            subs := s.subs ++ [v]
            pending := s.pending ++ [v] }
      else { s with course_id := some v }
  | CEvent.resolve v =>
      if v ∈ s.pending then { s with pending := s.pending.erase v } else s

/-- The state of a fresh request: nothing set, nothing subscribed. -/
def initSubState : SubState := {}

/-- Folding a list of fetch resolutions over a state. -/
def runResolves (s : SubState) (rs : List String) : SubState :=
  rs.foldl (fun t v => cstep t (CEvent.resolve v)) s

/-- The state after two successive course_id changes from a fresh request. -/
def afterTwoChanges (id1 id2 : String) : SubState :=
  cstep (cstep initSubState (CEvent.changeId id1)) (CEvent.changeId id2)

/-! ### Concrete sample data used by the witnesses -/

/-- The honor seat of the spec's round-trip scenario: certificate_type
honor, one stock record with the string id 5. -/
def sampleSeat : Seat :=
  { certificate_type := "honor", display_name := "Honor", stockrecords := [StockRecord.mk "5"] }

/-- A course carrying the sample seat. -/
def sampleCourse : Course := { id := "edX/DemoX/Demo", products := [sampleSeat] }

/-- A concrete enrollment request whose course is resolved to the sample
course and whose seat type is honor. -/
def sampleReq : CouponRequest :=
  { initializeReq {} with
      title := "Demo coupon"
      client_username := "client"
      seat_type := "honor"
      course_id := "edX/DemoX/Demo"
      course := some sampleCourse
      voucher_type := "Once per customer"
      code_type := "enrollment"
      price := "100" }

/-- The sample request with a seat type no seat of the course carries. -/
def mismatchReq : CouponRequest := { sampleReq with seat_type := "verified" }

/-- A request carrying only an in-order pair of dates. -/
def dateReq : CouponRequest :=
  { start_date := "01/01/2024", end_date := "02/01/2024" }

/-- A resolved course with no seats. -/
def emptyCourse : Course := { id := "edX/DemoX/Demo", products := [] }

/-- A fresh request the instant after its voucher type is set to Single
use. -/
def singleUseReq : CouponRequest :=
  stepOp (initializeReq {}) (Op.setVoucherType "Single use")

/-- A fresh request whose voucher type is set to Single use and whose
quantity attribute is then externally overwritten with the string 7. -/
def quantityOverrideReq : CouponRequest :=
  stepOp singleUseReq (Op.setQuantity "7")

end CouponModel

namespace CouponModel

example : jsParseInt "5" = some 5 := by decide
example : jsParseInt "  -42x" = some (-42) := by decide
example : jsParseInt "x" = none := by decide
example : jsParseFloat "" = none := by decide
example : courseIdValid "a+b+c+d" = true := by decide
example : courseIdValid "a/b/c" = true := by decide
example : courseIdValid "a/b" = false := by decide
example : courseIdValid "course-v1:Org+101+2024" = true := by decide
example : specThreeSegments "a+b+c+d" = false := by decide
example : specThreeSegments "a/b/c" = true := by decide
example : parseDate "02/01/2024" = some ⟨2024, 2, 1⟩ := by decide
example : parseDate "02/30/2024" = none := by decide
example : parseDate "" = none := by decide

/-! ### Helper lemmas -/

/-- A successful save comes from a resolved course and a found seat, and its
payload is the shaped data object. -/
theorem save_ok_elim {req : CouponRequest} {p : Payload} (h : save req = Except.ok p) :
    ∃ c seat, req.course = some c ∧
      findWhereCert c.products req.seat_type = some seat ∧ p = buildData req seat := by
  unfold save at h
  split at h
  · exact absurd h (by simp)
  next c hc =>
    split at h
    · exact absurd h (by simp)
    next seat hs =>
      injection h with h
      exact ⟨c, seat, hc, hs, h.symm⟩

/-- The quantity field of the shaped payload is the computed coupon
quantity, whatever the code_type switch does. -/
theorem buildData_quantity (req : CouponRequest) (seat : Seat) :
    (buildData req seat).quantity = couponQuantity req := by
  unfold buildData baseData
  split_ifs <;> rfl

/-- The stock_record_ids field of the shaped payload is the parsed id list
of the seat's stock records, whatever the code_type switch does. -/
theorem buildData_stock (req : CouponRequest) (seat : Seat) :
    (buildData req seat).stock_record_ids = seat.stockrecords.map (fun r => jsParseInt r.id) := by
  unfold buildData baseData
  split_ifs <;> rfl

/-- A string that parses as a date is not the empty string. -/
theorem parseDate_ne_empty {s : String} {d : SimpleDate} (h : parseDate s = some d) :
    ¬s = "" := by
  intro he
  rw [he] at h
  have h0 : parseDate "" = none := by decide
  rw [h0] at h
  exact Option.noConfusion h

/-- fillFromCourse leaves the voucher type and the quantity untouched. -/
theorem fillFromCourse_ok_proj {req : CouponRequest} {c : Course} {s2 : CouponRequest}
    (h : fillFromCourse req c = Except.ok s2) :
    s2.voucher_type = req.voucher_type ∧ s2.quantity = req.quantity := by
  unfold fillFromCourse at h
  split at h
  · exact absurd h (by simp)
  · injection h with h
    subst h
    exact ⟨rfl, rfl⟩

/-- Every operation other than an external quantity write either leaves
both the voucher type and the quantity unchanged, or establishes the
Single-use/quantity-1 conjunction, or leaves the voucher type different
from Single use. -/
theorem stepOp_voucher_quantity (s : CouponRequest) (op : Op)
    (hq : isSetQuantity op = false) :
    ((stepOp s op).voucher_type = s.voucher_type ∧ (stepOp s op).quantity = s.quantity) ∨
    ((stepOp s op).voucher_type = "Single use" ∧ (stepOp s op).quantity = JSVal.num 1) ∨
    ¬(stepOp s op).voucher_type = "Single use" := by
  cases op
  all_goals try exact Or.inl ⟨rfl, rfl⟩
  case setQuantity v =>
    simp [isSetQuantity] at hq
  case setCourseId v =>
    dsimp only [stepOp]
    split_ifs <;> exact Or.inl ⟨rfl, rfl⟩
  case setVoucherType v =>
    dsimp only [stepOp]
    split_ifs with h1 h2
    · exact Or.inl ⟨rfl, rfl⟩
    · exact Or.inr (Or.inl ⟨h2, rfl⟩)
    · exact Or.inr (Or.inr h2)
  case courseChanged c =>
    cases hf : fillFromCourse s c with
    | ok s2 =>
        have hstep : stepOp s (Op.courseChanged c) = s2 := by
          simp only [stepOp, hf]
        rw [hstep]
        exact Or.inl (fillFromCourse_ok_proj hf)
    | error e =>
        have hstep : stepOp s (Op.courseChanged c) = { s with seatTypes := [] } := by
          simp only [stepOp, hf]
        rw [hstep]
        exact Or.inl ⟨rfl, rfl⟩

/-- A resolve event changes neither the course attribute nor the
subscription list. -/
theorem cstep_resolve_proj (s : SubState) (v : String) :
    (cstep s (CEvent.resolve v)).course = s.course ∧
      (cstep s (CEvent.resolve v)).subs = s.subs := by
  dsimp only [cstep]
  split_ifs <;> exact ⟨rfl, rfl⟩

/-- Any sequence of resolve events changes neither the course attribute nor
the subscription list. -/
theorem runResolves_proj (rs : List String) (s : SubState) :
    (runResolves s rs).course = s.course ∧ (runResolves s rs).subs = s.subs := by
  induction rs generalizing s with
  | nil => exact ⟨rfl, rfl⟩
  | cons v t ih =>
      have h1 := cstep_resolve_proj s v
      have h2 := ih (cstep s (CEvent.resolve v))
      exact ⟨h2.1.trans h1.1, h2.2.trans h1.2⟩

/-- The first-segment scan of the courseId matcher walks through a run of
non-separator characters and hands over at the first separator. -/
theorem m1_through (a : List Char) (han : ∀ x ∈ a, isSep x = false)
    (s1 : Char) (hs1 : isSep s1 = true) (r : List Char) :
    m1 (a ++ (s1 :: r)) = m2 r := by
  induction a with
  | nil => simp [m1, hs1]
  | cons y t ih =>
      have hy : isSep y = false := han y (by simp)
      simp only [List.cons_append, m1, hy, Bool.false_eq_true, if_false]
      exact ih (fun w hw => han w (by simp [hw]))

/-- The second-segment scan of the courseId matcher walks through a run of
non-separator characters and hands over at the second separator. -/
theorem m3_through (b : List Char) (hbn : ∀ x ∈ b, isSep x = false)
    (s2 : Char) (hs2 : isSep s2 = true) (r : List Char) :
    m3 (b ++ (s2 :: r)) = m4 r := by
  induction b with
  | nil => simp [m3, hs2]
  | cons y t ih =>
      have hy : isSep y = false := hbn y (by simp)
      simp only [List.cons_append, m3, hy, Bool.false_eq_true, if_false]
      exact ih (fun w hw => hbn w (by simp [hw]))

/-! ### The claims -/

/-- C1: for every request whose save succeeds, the payload of an
enrollment-code request carries benefit_type Percentage, benefit_value 100
and the parsed numeric value of the request's price, regardless of the
request's benefit value; the payload of a discount-code request carries
price 0, the request's benefit_type, and the parsed numeric value of the
request's benefit_value. -/
theorem save_code_type_payload (req : CouponRequest) (p : Payload)
    (h : save req = Except.ok p) :
    (req.code_type = "enrollment" →
      p.price = some (jsParseFloat req.price) ∧
      p.benefit_type = some "Percentage" ∧
      p.benefit_value = some (some 100)) ∧
    (req.code_type = "discount" →
      p.price = some (some 0) ∧
      p.benefit_type = some req.benefit_type ∧
      p.benefit_value = some (jsParseFloat req.benefit_value)) := by
  obtain ⟨c, seat, hc, hs, rfl⟩ := save_ok_elim h
  constructor
  · intro hct
    simp [buildData, baseData, hct]
  · intro hct
    simp [buildData, baseData, hct]

/-- C1 witness: the sample enrollment request saves, and its payload
carries the Percentage 100 benefit. -/
theorem save_code_type_payload_witness :
    ∃ p, save sampleReq = Except.ok p ∧
      p.benefit_type = some "Percentage" ∧ p.benefit_value = some (some 100) := by
  have h : save sampleReq = Except.ok (buildData sampleReq sampleSeat) := rfl
  obtain ⟨h1, _⟩ := save_code_type_payload sampleReq (buildData sampleReq sampleSeat) h
  obtain ⟨_, hbt, hbv⟩ := h1 rfl
  exact ⟨_, h, hbt, hbv⟩

/-- C2 counterexample: the invariant does not hold of every reachable
state.  After setting the voucher type to Single use (which forces quantity
to 1), an external set of the quantity attribute to the string 7 fires no
handler (only change:voucher_type and change:course_id are registered), so
the request reaches a state with voucher type Single use and quantity 7. -/
theorem single_use_quantity_counterexample :
    Reachable quantityOverrideReq ∧
    quantityOverrideReq.voucher_type = "Single use" ∧
    ¬quantityOverrideReq.quantity = JSVal.num 1 :=
  ⟨Reachable.step (Op.setQuantity "7")
      (Reachable.step (Op.setVoucherType "Single use") (Reachable.init {})),
    by decide, by decide⟩

/-- C2 amended: changeVoucherType forces quantity to 1, regardless of its
prior value, whenever it fires with the new value Single use; and along any
operation sequence from a freshly constructed request that contains no
external write of the quantity attribute, quantity is 1 whenever the
voucher type is Single use.  An external set of quantity fires no handler
and can break the invariant (see the counterexample). -/
theorem single_use_quantity_amended :
    (∀ s : CouponRequest, ¬s.voucher_type = "Single use" →
        (stepOp s (Op.setVoucherType "Single use")).quantity = JSVal.num 1) ∧
    (∀ (r : CouponRequest) (ops : List Op),
        (∀ op ∈ ops, isSetQuantity op = false) →
        (runOps (initializeReq r) ops).voucher_type = "Single use" →
        (runOps (initializeReq r) ops).quantity = JSVal.num 1) := by
  constructor
  · intro s hne
    simp [stepOp, hne]
  · have key : ∀ (ops : List Op), (∀ op ∈ ops, isSetQuantity op = false) →
        ∀ s : CouponRequest,
          (s.voucher_type = "Single use" → s.quantity = JSVal.num 1) →
          (runOps s ops).voucher_type = "Single use" →
          (runOps s ops).quantity = JSVal.num 1 := by
      intro ops
      induction ops with
      | nil => intro _ s hP hv; exact hP hv
      | cons op t ih =>
          intro hops s hP
          have hq : isSetQuantity op = false := hops op (by simp)
          have hstep : (stepOp s op).voucher_type = "Single use" →
              (stepOp s op).quantity = JSVal.num 1 := by
            rcases stepOp_voucher_quantity s op hq with ⟨ha, hb⟩ | ⟨ha, hb⟩ | ha
            · intro hv
              rw [hb]
              exact hP (ha.symm.trans hv)
            · intro _
              exact hb
            · intro hv
              exact absurd hv ha
          exact ih (fun w hw => hops w (by simp [hw])) (stepOp s op) hstep
    intro r ops hops
    exact key ops hops (initializeReq r) (fun _ => rfl)

/-- C2 witness: a fresh request whose voucher type was just set to Single
use, with no quantity write, has quantity 1. -/
theorem single_use_quantity_amended_witness :
    singleUseReq.voucher_type = "Single use" ∧ singleUseReq.quantity = JSVal.num 1 :=
  ⟨by decide,
    single_use_quantity_amended.2 {} [Op.setVoucherType "Single use"]
      (by decide) (by decide)⟩

/-- C3: the quantity field of the payload built by save is 1 when the
voucher type is not Single use or the quantity attribute is empty, and
otherwise it is the parsed integer value of the quantity attribute. -/
theorem save_quantity_field (req : CouponRequest) (p : Payload)
    (h : save req = Except.ok p) :
    ((¬req.voucher_type = "Single use" ∨ jsIsEmpty req.quantity = true) →
      p.quantity = some 1) ∧
    (req.voucher_type = "Single use" → jsIsEmpty req.quantity = false →
      p.quantity = jsvalParseInt req.quantity) := by
  obtain ⟨c, seat, hc, hs, rfl⟩ := save_ok_elim h
  rw [buildData_quantity]
  unfold couponQuantity
  constructor
  · intro hcond
    rw [if_pos hcond]
  · intro h1 h2
    have hnot : ¬(¬req.voucher_type = "Single use" ∨ jsIsEmpty req.quantity = true) := by
      rintro (hx | hx)
      · exact hx h1
      · rw [h2] at hx
        exact Bool.noConfusion hx
    rw [if_neg hnot]

/-- C3 witness: the sample request's voucher type is not Single use, so its
payload carries quantity 1. -/
theorem save_quantity_field_witness :
    ∃ p, save sampleReq = Except.ok p ∧ p.quantity = some 1 := by
  have h : save sampleReq = Except.ok (buildData sampleReq sampleSeat) := rfl
  exact ⟨_, h, (save_quantity_field sampleReq _ h).1 (Or.inl (by decide))⟩

/-- C4: when both dates parse in the fixed MM/DD/YYYY format, the two date
validators report no error iff the start date is strictly before the end
date, and otherwise both report their out-of-order message. -/
theorem date_validator_order (req : CouponRequest) (d e : SimpleDate)
    (hs : parseDate req.start_date = some d) (he : parseDate req.end_date = some e) :
    (dateLt d e = true →
      validateStartDate req = none ∧ validateEndDate req = none) ∧
    (dateLt d e = false →
      validateStartDate req = some "Must occur before end date" ∧
      validateEndDate req = some "Must occur after start date") := by
  have hne1 : ¬req.start_date = "" := parseDate_ne_empty hs
  have hne2 : ¬req.end_date = "" := parseDate_ne_empty he
  unfold validateStartDate validateEndDate
  rw [if_neg hne1, if_neg hne2, hs, he]
  constructor
  · intro hlt
    constructor <;> simp [hlt]
  · intro hlt
    constructor <;> simp [hlt]

/-- C4 witness: the in-order pair 01/01/2024, 02/01/2024 passes both date
validators. -/
theorem date_validator_order_witness :
    validateStartDate dateReq = none ∧ validateEndDate dateReq = none :=
  (date_validator_order dateReq ⟨2024, 1, 1⟩ ⟨2024, 2, 1⟩ (by decide) (by decide)).1
    (by decide)

/-- C5 counterexample: the string of four plus-separated segments is
accepted by the course_id validation although it does not consist of
exactly three non-empty segments, refuting the claimed equivalence. -/
theorem course_id_pattern_counterexample :
    courseIdValid "a+b+c+d" = true ∧ specThreeSegments "a+b+c+d" = false := by
  decide

/-- C5 amended: the course_id validation accepts every string that contains
a substring of the shape segment, separator, segment, separator,
non-slash character, the segments being non-empty runs of non-separator
characters; in particular every string consisting of exactly three
non-empty segments separated by slash or plus is accepted, but acceptance
does not imply that exact shape (the regex is unanchored and its third
class also admits plus). -/
theorem course_id_pattern_accepts_three_segments (s : String)
    (a b c3 : List Char) (s1 s2 : Char)
    (hdec : s.toList = a ++ (s1 :: (b ++ (s2 :: c3))))
    (ha : ¬a = []) (hb : ¬b = []) (hc : ¬c3 = [])
    (han : ∀ x ∈ a, isSep x = false) (hbn : ∀ x ∈ b, isSep x = false)
    (hcn : ∀ x ∈ c3, isSep x = false)
    (hs1 : isSep s1 = true) (hs2 : isSep s2 = true) :
    courseIdValid s = true := by
  unfold courseIdValid
  rw [hdec]
  rcases a with _ | ⟨x, at1⟩
  · exact absurd rfl ha
  rcases b with _ | ⟨y, bt1⟩
  · exact absurd rfl hb
  rcases c3 with _ | ⟨z, ct1⟩
  · exact absurd rfl hc
  have hx : isSep x = false := han x (by simp)
  have hy : isSep y = false := hbn y (by simp)
  have hz : isSep z = false := hcn z (by simp)
  have hz2 : ¬z = '/' := by
    intro hzz
    rw [hzz] at hz
    simp [isSep] at hz
  have hmatch : matchAtStart ((x :: at1) ++ (s1 :: ((y :: bt1) ++ (s2 :: (z :: ct1))))) = true := by
    simp only [List.cons_append, matchAtStart, hx, Bool.false_eq_true, if_false]
    rw [m1_through at1 (fun w hw => han w (by simp [hw])) s1 hs1]
    simp only [m2, hy, Bool.false_eq_true, if_false]
    rw [m3_through bt1 (fun w hw => hbn w (by simp [hw])) s2 hs2]
    simp [m4, hz2]
  simp only [List.cons_append] at hmatch ⊢
  rw [containsMatch, hmatch]
  rfl

/-- C5 witness: the exactly-three-segment string a/b/c is of the claimed
shape and is accepted. -/
theorem course_id_pattern_accepts_three_segments_witness :
    specThreeSegments "a/b/c" = true ∧ courseIdValid "a/b/c" = true := by
  constructor
  · decide
  · exact course_id_pattern_accepts_three_segments "a/b/c" ['a'] ['b'] ['c'] '/' '/'
      (by decide) (by decide) (by decide) (by decide)
      (by decide) (by decide) (by decide) (by decide) (by decide)

/-- C6: when the resolved course has a seat matching the request's seat
type, save succeeds and the payload's stock_record_ids is the list of
integer-parsed ids of that seat's stock records. -/
theorem save_stock_record_ids (req : CouponRequest) (c : Course) (seat : Seat)
    (hc : req.course = some c)
    (hs : findWhereCert c.products req.seat_type = some seat) :
    ∃ p, save req = Except.ok p ∧
      p.stock_record_ids = seat.stockrecords.map (fun r => jsParseInt r.id) := by
  refine ⟨buildData req seat, ?_, buildData_stock req seat⟩
  simp only [save, hc, hs]

/-- C6 witness: the honor seat with stock record id "5" yields
stock_record_ids [5] (string id coerced to an integer). -/
theorem save_stock_record_ids_witness :
    ∃ p, save sampleReq = Except.ok p ∧ p.stock_record_ids = [some 5] := by
  obtain ⟨p, hp, hsr⟩ := save_stock_record_ids sampleReq sampleCourse sampleSeat rfl (by decide)
  refine ⟨p, hp, ?_⟩
  rw [hsr]
  decide

/-- C7: when no seat of the resolved course carries the request's seat
type, save fails with the lookup error before any payload is produced. -/
theorem save_missing_seat_error (req : CouponRequest) (c : Course)
    (hc : req.course = some c)
    (hno : ∀ seat ∈ c.products, ¬seat.certificate_type = req.seat_type) :
    save req = Except.error SaveError.lookupError := by
  have hfind : findWhereCert c.products req.seat_type = none := by
    unfold findWhereCert
    rw [List.find?_eq_none]
    intro x hx
    simp [hno x hx]
  simp only [save, hc, hfind]

/-- C7 witness: the sample course has no verified seat, so saving the
mismatched request raises the lookup error. -/
theorem save_missing_seat_error_witness :
    save mismatchReq = Except.error SaveError.lookupError :=
  save_missing_seat_error mismatchReq sampleCourse rfl (by decide)

/-- C8: on a resolved course with zero seats, fillFromCourse fails (indexing
the first element of the empty seat-type list) instead of completing and
setting the seat type. -/
theorem fill_from_course_empty_fails (req : CouponRequest) (c : Course)
    (h : c.products = []) :
    fillFromCourse req c = Except.error FillError.noSeats := by
  simp [fillFromCourse, h]

/-- C8 witness: a fresh request and a course with no seats. -/
theorem fill_from_course_empty_fails_witness :
    fillFromCourse (initializeReq {}) emptyCourse = Except.error FillError.noSeats :=
  fill_from_course_empty_fails (initializeReq {}) emptyCourse rfl

/-- C9 counterexample: after two valid course_id changes, two
change-subscriptions are outstanding, not at most one: loadCourse calls
listenTo without ever removing the previous subscription. -/
theorem course_subscription_counterexample :
    (afterTwoChanges "course-v1:Org+101+2024" "course-v1:Org+102+2024").subs =
      ["course-v1:Org+101+2024", "course-v1:Org+102+2024"] ∧
    ¬(afterTwoChanges "course-v1:Org+101+2024" "course-v1:Org+102+2024").subs.length ≤ 1 := by
  decide

/-- C9 amended: each change to a courseId that passes pattern validation
triggers exactly one course fetch and synchronously overwrites the course
attribute, so after two valid changes the request's course references the
second courseId regardless of the order in which the fetches resolve
(last-writer-wins); the previous subscription, however, is not replaced:
both subscriptions remain outstanding. -/
theorem course_last_writer_wins (id1 id2 : String) (rs : List String)
    (h1 : courseIdValid id1 = true) (h2 : courseIdValid id2 = true)
    (hne : ¬id1 = id2) :
    (afterTwoChanges id1 id2).pending = [id1, id2] ∧
    (afterTwoChanges id1 id2).subs = [id1, id2] ∧
    (runResolves (afterTwoChanges id1 id2) rs).course = some id2 ∧
    (runResolves (afterTwoChanges id1 id2) rs).subs = [id1, id2] := by
  have hstate : afterTwoChanges id1 id2 =
      { course_id := some id2, course := some id2,
        subs := [id1, id2], pending := [id1, id2] } := by
    simp [afterTwoChanges, cstep, initSubState, h1, h2, hne]
  obtain ⟨hcourse, hsubs⟩ := runResolves_proj rs (afterTwoChanges id1 id2)
  refine ⟨?_, ?_, ?_, ?_⟩
  · rw [hstate]
  · rw [hstate]
  · rw [hcourse, hstate]
  · rw [hsubs, hstate]

/-- C9 witness: the spec's two-change scenario, with both fetches resolving
afterwards in order: the course attribute references the second id. -/
theorem course_last_writer_wins_witness :
    (runResolves (afterTwoChanges "course-v1:Org+101+2024" "course-v1:Org+102+2024")
        ["course-v1:Org+101+2024", "course-v1:Org+102+2024"]).course =
      some "course-v1:Org+102+2024" :=
  (course_last_writer_wins "course-v1:Org+101+2024" "course-v1:Org+102+2024"
    ["course-v1:Org+101+2024", "course-v1:Org+102+2024"]
    (by decide) (by decide) (by decide)).2.2.1

/-- C10: immediately after construction, before any user input, a coupon
request's quantity attribute is 1: initialize sets it unconditionally. -/
theorem initialize_sets_quantity_one (r : CouponRequest) :
    (initializeReq r).quantity = JSVal.num 1 := rfl

end CouponModel
